import Mathlib

/-!
Verification of `react-async-effect-state` (src/index.ts).

The library exposes an `AsyncEffectState` value (a tagged variant
Pending / Loading / Error / Resolved), a request coordinator
(`useManualAsyncState.update` / `trigger` / `reset`), and pure
combinators `map`, `flatMap`, `combine`.

Embedding notes:
* `AsyncEffectState<T>` becomes the inductive `AES T`; the error payload
  is modelled as a `Nat` identifier (the JS `Error` object is opaque).
* Producers (the async closures) are modelled by `Nat` identifiers; an
  environment `Env : Nat → Outcome` fixes each producer's eventual
  settlement (resolve value or rejection error).
* The coordinator's mutable refs (`updateQueued`, `updateRunning`,
  `currentNonce`) and the published React state live in a record
  `CState`.  `currentNonce` is `Option Nat` because `reset` assigns the
  JS `null` to it (and JS `null + 1 = 1`, see `nonceIncr`).
* The render-time closure variable `currentState` (destructured from
  `useState` at render time, and therefore possibly lagging behind the
  latest `setResult`) is modelled by the field `renderState`; a
  `rerender` action copies `result` into it.
* Cooperative scheduling: the suspension points are the debounce wait
  (`waitPromise`) and the producer's settlement.  A suspended operation
  is a `Task` in `tasks`; the external scheduler's choices are the
  `Act` actions (`fire` resolves a debounce timer, `settle` settles a
  running producer).  The `Promise.resolve().then` hop on the
  non-debounced path is treated as a synchronous continuation.
* `setResult` calls are logged in `published` (React re-notifies
  observers on every `setResult`, even for an equal value), producer
  invocations in `invoked`, and admissions (the branch that increments
  `updateRunning`) in `admitted`.
* JS truthiness of `debounceDelayMs` (`undefined` and `0` are falsy) is
  `msTruthy`.
-/

/-- The `AsyncState` tag together with its payload: the `AsyncEffectState<T>`
tuple type from src/index.ts, with the error payload modelled as `Nat`. -/
inductive AES (T : Type) where
  | pending : AES T
  | loading : AES T
  | error : Nat → AES T
  | resolved : T → AES T
deriving DecidableEq, Repr

/-- Function `map` from src/index.ts: return the input unchanged unless the state
is `RESOLVED`, in which case apply the mapper to the payload. -/
def map {T U : Type} (mapper : T → U) (input : AES T) : AES U :=
  match input with
  | .pending => .pending
  | .loading => .loading
  | .error e => .error e
  | .resolved v => .resolved (mapper v)

/-- Function `flatMap` from src/index.ts: return the input unchanged unless the
state is `RESOLVED`, in which case return `mapper payload` directly. -/
def flatMap {T U : Type} (mapper : T → AES U) (input : AES T) : AES U :=
  match input with
  | .pending => .pending
  | .loading => .loading
  | .error e => .error e
  | .resolved v => mapper v

/-- Function `combine` from src/index.ts: the cascade of tag checks, in source
order (`a` error, `b` error, `a` pending, `b` pending, `a` loading,
`b` loading, else both resolved). -/
def combine {T1 T2 U : Type} (combiner : T1 → T2 → U)
    (input1 : AES T1) (input2 : AES T2) : AES U :=
  match input1, input2 with
  | .error e, _ => .error e
  | _, .error e => .error e
  | .pending, _ => .pending
  | _, .pending => .pending
  | .loading, _ => .loading
  | _, .loading => .loading
  | .resolved v1, .resolved v2 => .resolved (combiner v1 v2)

/-- The `Options` record from src/index.ts, with the effective default
already merged in (`initiallyPending` carries the caller-dependent
default explicitly). -/
structure Options where
  noLoadingOnReload : Bool
  disableRequestDedup : Bool
  updateStateOnAllCall : Bool
  debounceDelayMs : Option Nat
  debounceOnInitialCall : Bool
  initiallyPending : Bool
deriving DecidableEq, Repr

/-- Effective options of `useManualAsyncState` with no options argument:
every flag absent (JS falsy), `initiallyPending` defaulted to `true`. -/
def defaultManualOptions : Options :=
  { noLoadingOnReload := false
    disableRequestDedup := false
    updateStateOnAllCall := false
    debounceDelayMs := none
    debounceOnInitialCall := false
    initiallyPending := true }

/-- JS truthiness of the `debounceDelayMs` option: `undefined` and `0`
are falsy, every other number is truthy. -/
def msTruthy : Option Nat → Bool
  | none => false
  | some n => n != 0

/-- Settlement of a producer: the promise either resolves with a value
or rejects with an error. -/
inductive Outcome where
  | ok : Nat → Outcome
  | err : Nat → Outcome
deriving DecidableEq, Repr

/-- Environment fixing how each producer settles. -/
def Env : Type := Nat → Outcome

/-- Phase of a suspended operation: parked on the debounce
`waitPromise`, or producer invoked and awaiting settlement. -/
inductive Phase where
  | debouncing : Phase
  | running : Phase
deriving DecidableEq, Repr

/-- One suspended operation: the nonce captured at admission
(`updateNonce`), the producer it will run / is running, and its phase. -/
structure OpTask where
  nonce : Option Nat
  producer : Nat
  phase : Phase
deriving DecidableEq, Repr

/-- Coordinator state: the published React state (`result`), the render
closure's snapshot of it (`renderState`), the three refs, the suspended
operations, and the observation logs. -/
structure CState where
  result : AES Nat
  renderState : AES Nat
  updateQueued : Option Nat
  updateRunning : Nat
  currentNonce : Option Nat
  tasks : List OpTask
  admitted : List Nat
  invoked : List Nat
  published : List (AES Nat)
deriving DecidableEq, Repr

/-- The `initialState` value from src/index.ts: `PENDING` if `initiallyPending`
else `LOADING`. -/
def initResult (o : Options) : AES Nat :=
  if o.initiallyPending then .pending else .loading

/-- Initial coordinator state: refs at `null`/`0`, state published once
by `useState`'s initializer (not a `setResult`, so not logged). -/
def initCState (o : Options) : CState :=
  { result := initResult o
    renderState := initResult o
    updateQueued := none
    updateRunning := 0
    currentNonce := some 0
    tasks := []
    admitted := []
    invoked := []
    published := [] }

/-- Function `shouldUpdateState` from src/index.ts, as a function of the captured
`updateNonce` and the current values of the two refs it reads. -/
def shouldUpdateState (o : Options) (updateNonce : Option Nat)
    (queued : Option Nat) (nonce : Option Nat) : Bool :=
  o.updateStateOnAllCall || (updateNonce == nonce && queued.isNone)

/-- The `shouldQueue` flag computed at the top of `update`: dedup not
disabled and no (truthy) debounce delay configured. -/
def shouldQueueCfg (o : Options) : Bool :=
  !o.disableRequestDedup && !(msTruthy o.debounceDelayMs)

/-- The JS tag test `currentState === AsyncState.PENDING`. -/
def isPendingTag : AES Nat → Bool
  | .pending => true
  | _ => false

/-- Incrementing the nonce, `currentNonce.current += 1` in JS: `null + 1 = 1`. -/
def nonceIncr : Option Nat → Option Nat
  | none => some 1
  | some n => some (n + 1)

/-- The `update` function of `useManualAsyncState`, fuelled so that the
drain-retry recursion (`.finally` picking up `updateQueued`) is
structural.  Fuel 2 always suffices: a retry is called with
`updateQueued` just cleared, so its own staleness check passes and it
never recurses further (see `updateF_fuel_ge_two`-style reasoning in the
skip branch).  Branch by branch this mirrors src/index.ts lines 112-175:
queue check, admission (`updateRunning += 1`, nonce capture, conditional
`LOADING` publish, debounce decision), then the synchronous part of the
promise chain: park on the debounce timer, or check `shouldUpdateState`
and invoke the producer, or skip and drain (`.finally`). -/
def updateF : Nat → Options → Bool → Nat → CState → CState
  | 0, _, _, _, s => s
  | fuel + 1, o, queuedUpdate, producer, s =>
    if s.updateRunning != 0 && shouldQueueCfg o then
      { s with updateQueued := some producer }
    else
      let updateNonce := s.currentNonce
      let loadingPub := !o.noLoadingOnReload || isPendingTag s.renderState
      let result1 := if loadingPub then AES.loading else s.result
      let published1 :=
        if loadingPub then s.published ++ [AES.loading] else s.published
      let shouldDebounce :=
        if queuedUpdate then false
        else if msTruthy o.debounceDelayMs then
          if s.updateRunning + 1 == 1 then o.debounceOnInitialCall else true
        else false
      if shouldDebounce then
        { s with updateRunning := s.updateRunning + 1
                 result := result1
                 published := published1
                 admitted := s.admitted ++ [producer]
                 tasks := s.tasks ++ [⟨updateNonce, producer, .debouncing⟩] }
      else if shouldUpdateState o updateNonce s.updateQueued s.currentNonce then
        { s with updateRunning := s.updateRunning + 1
                 result := result1
                 published := published1
                 admitted := s.admitted ++ [producer]
                 tasks := s.tasks ++ [⟨updateNonce, producer, .running⟩]
                 invoked := s.invoked ++ [producer] }
      else
        match s.updateQueued with
        | some q =>
          updateF fuel o true q
            { s with updateRunning := s.updateRunning
                     result := result1
                     published := published1
                     admitted := s.admitted ++ [producer]
                     updateQueued := none }
        | none =>
          { s with updateRunning := s.updateRunning
                   result := result1
                   published := published1
                   admitted := s.admitted ++ [producer] }

/-- The `update` entry point (fuel 2 always suffices, see `updateF`). -/
def update (o : Options) (queuedUpdate : Bool) (producer : Nat)
    (s : CState) : CState :=
  updateF 2 o queuedUpdate producer s

/-- The `.finally` drain of src/index.ts lines 164-173: if a producer is
queued, take it, clear the slot, decrement `updateRunning` and re-enter
`update` as a queued retry; otherwise just decrement. -/
def drain (o : Options) (s : CState) : CState :=
  match s.updateQueued with
  | some q =>
    update o true q
      { s with updateQueued := none, updateRunning := s.updateRunning - 1 }
  | none => { s with updateRunning := s.updateRunning - 1 }

/-- Settlement of the producer of the running task at index `i`
(src/index.ts lines 152-173): publish `RESOLVED`/`ERROR` iff
`shouldUpdateState()` holds at settlement time, then drain. -/
def settleTask (o : Options) (env : Env) (i : Nat) (s : CState) : CState :=
  match s.tasks[i]? with
  | none => s
  | some t =>
    match t.phase with
    | .debouncing => s
    | .running =>
      let s1 := { s with tasks := s.tasks.eraseIdx i }
      let s2 :=
        if shouldUpdateState o t.nonce s1.updateQueued s1.currentNonce then
          match env t.producer with
          | .ok v =>
            { s1 with result := AES.resolved v
                      published := s1.published ++ [AES.resolved v] }
          | .err e =>
            { s1 with result := AES.error e
                      published := s1.published ++ [AES.error e] }
        else s1
      drain o s2

/-- The debounce `waitPromise` of the debouncing task at index `i`
resolves (src/index.ts lines 147-151): re-check `shouldUpdateState()`;
if false skip the producer entirely (no-op completion, drain); if true
invoke the producer (task becomes running; the drain happens later, at
settlement). -/
def fireTask (o : Options) (i : Nat) (s : CState) : CState :=
  match s.tasks[i]? with
  | none => s
  | some t =>
    match t.phase with
    | .running => s
    | .debouncing =>
      if shouldUpdateState o t.nonce s.updateQueued s.currentNonce then
        { s with tasks := s.tasks.set i { t with phase := .running }
                 invoked := s.invoked ++ [t.producer] }
      else
        drain o { s with tasks := s.tasks.eraseIdx i }

/-- Function `trigger` from src/index.ts lines 177-185: bump the nonce and run
`update` with the render's producer (not a queued retry). -/
def triggerCall (o : Options) (producer : Nat) (s : CState) : CState :=
  update o false producer { s with currentNonce := nonceIncr s.currentNonce }

/-- Invoking the handle returned by `trigger` (src/index.ts lines
181-184): unconditionally `updateQueued.current = null`. -/
def cancelQueuedCall (s : CState) : CState :=
  { s with updateQueued := none }

/-- Function `reset` from src/index.ts lines 187-195: publish the initial state,
set `currentNonce` to `null`, clear the queued producer. -/
def resetCall (o : Options) (s : CState) : CState :=
  { s with result := initResult o
           published := s.published ++ [initResult o]
           currentNonce := none
           updateQueued := none }

/-- A React re-render: the render closure's `currentState` snapshot
catches up with the latest published state. -/
def rerenderCall (s : CState) : CState :=
  { s with renderState := s.result }

/-- Scheduler actions: the external events that can advance the
coordinator between suspension points. -/
inductive Act where
  | trigger : Nat → Act
  | cancelQueued : Act
  | reset : Act
  | rerender : Act
  | fire : Nat → Act
  | settle : Nat → Act
deriving DecidableEq, Repr

/-- One scheduler step. -/
def step (o : Options) (env : Env) (s : CState) : Act → CState
  | .trigger p => triggerCall o p s
  | .cancelQueued => cancelQueuedCall s
  | .reset => resetCall o s
  | .rerender => rerenderCall s
  | .fire i => fireTask o i s
  | .settle i => settleTask o env i s

/-- Run a list of scheduler actions. -/
def run (o : Options) (env : Env) (s : CState) : List Act → CState
  | [] => s
  | a :: rest => run o env (step o env s a) rest

/-- Producer settlement environment where producer `p` resolves with the
value `p` itself. -/
def envId : Env := fun p => Outcome.ok p

/-- Default options with `updateStateOnAllCall` set. -/
def withAllCall : Options :=
  { defaultManualOptions with updateStateOnAllCall := true }

/-- Default options with `noLoadingOnReload` set. -/
def withNoLoadOnReload : Options :=
  { defaultManualOptions with noLoadingOnReload := true }

/-- Default options with `debounceDelayMs = 1000`. -/
def withDebounce : Options :=
  { defaultManualOptions with debounceDelayMs := some 1000 }

/-- Returns `true` exactly on `Act.trigger` actions. -/
def isTriggerAct : Act → Bool
  | .trigger _ => true
  | _ => false

/-- Claim C9: `map` and `flatMap` pass every non-`Resolved` input through
unchanged (same tag, same error payload), and on `Resolved v` return
`Resolved (f v)` resp. `f v` directly. -/
theorem c9_map_flatMap_passthrough :
    ∀ (T U : Type) (f : T → U) (g : T → AES U),
      map f (.pending : AES T) = .pending ∧
      map f (.loading : AES T) = .loading ∧
      (∀ e, map f (.error e : AES T) = .error e) ∧
      (∀ v, map f (.resolved v) = .resolved (f v)) ∧
      flatMap g (.pending : AES T) = .pending ∧
      flatMap g (.loading : AES T) = .loading ∧
      (∀ e, flatMap g (.error e : AES T) = .error e) ∧
      (∀ v, flatMap g (.resolved v) = g v) := by
  intro T U f g
  exact ⟨rfl, rfl, fun _ => rfl, fun _ => rfl, rfl, rfl, fun _ => rfl,
    fun _ => rfl⟩

/-- Claim C8: `combine` follows the precedence Error (a then b) >
Pending (a then b) > Loading (a then b) > both Resolved, the non-winning
input's payload is returned verbatim, and the combiner is consulted only
when both inputs are Resolved (changing it cannot change any other
case's output). -/
theorem c8_combine_precedence :
    ∀ (T1 T2 U : Type) (f g : T1 → T2 → U) (a : AES T1) (b : AES T2)
      (e e2 : Nat) (v1 : T1) (v2 : T2),
      combine f (.error e) b = .error e ∧
      combine f (.pending : AES T1) (.error e : AES T2) = .error e ∧
      combine f (.loading : AES T1) (.error e : AES T2) = .error e ∧
      combine f (.resolved v1) (.error e : AES T2) = .error e ∧
      combine f (.error e) (.error e2 : AES T2) = .error e ∧
      combine f (.pending : AES T1) (.pending : AES T2) = .pending ∧
      combine f (.pending : AES T1) (.loading : AES T2) = .pending ∧
      combine f (.pending : AES T1) (.resolved v2) = .pending ∧
      combine f (.loading : AES T1) (.pending : AES T2) = .pending ∧
      combine f (.resolved v1) (.pending : AES T2) = .pending ∧
      combine f (.loading : AES T1) (.loading : AES T2) = .loading ∧
      combine f (.loading : AES T1) (.resolved v2) = .loading ∧
      combine f (.resolved v1) (.loading : AES T2) = .loading ∧
      combine f (.resolved v1) (.resolved v2) = .resolved (f v1 v2) ∧
      ((∀ w1 w2, a ≠ .resolved w1 ∨ b ≠ .resolved w2) →
        combine f a b = combine g a b) := by
  intro T1 T2 U f g a b e e2 v1 v2
  refine ⟨?_, rfl, rfl, rfl, rfl, rfl, rfl, rfl, rfl, rfl, rfl, rfl, rfl,
    rfl, ?_⟩
  · cases b <;> rfl
  · intro h
    cases a <;> cases b <;> first
      | rfl
      | exact ((h _ _).elim (fun ha => ha rfl) (fun hb => hb rfl)).elim

/-- Claim C3 counterexample: with default options, trigger 1 is admitted
directly (its queueing stores nothing into `updateQueued`), trigger 2
then queues producer 2; invoking trigger 1's returned handle
(`updateQueued.current = null`) nevertheless clears producer 2 — so the
handle does not clear "iff `updateQueued` still holds the producer this
same trigger's queueing stored". -/
theorem c3_cancel_handle_cex :
    ((triggerCall defaultManualOptions 1
        (initCState defaultManualOptions)).updateQueued = none) ∧
    ((triggerCall defaultManualOptions 2
        (triggerCall defaultManualOptions 1
          (initCState defaultManualOptions))).updateQueued = some 2) ∧
    ((cancelQueuedCall
        (triggerCall defaultManualOptions 2
          (triggerCall defaultManualOptions 1
            (initCState defaultManualOptions)))).updateQueued = none) := by
  exact ⟨by decide, by decide, by decide⟩

/-- Claim C3 (amended): the handle returned by `trigger` clears
`updateQueued` unconditionally — whatever producer is queued, from
whichever trigger — and touches nothing else: the suspended operations,
the running count, the invocation log, the published state and the
nonce are all unaffected, so it never cancels work already running. -/
theorem c3_cancel_handle_amended :
    ∀ s : CState,
      (cancelQueuedCall s).updateQueued = none ∧
      (cancelQueuedCall s).tasks = s.tasks ∧
      (cancelQueuedCall s).updateRunning = s.updateRunning ∧
      (cancelQueuedCall s).invoked = s.invoked ∧
      (cancelQueuedCall s).admitted = s.admitted ∧
      (cancelQueuedCall s).result = s.result ∧
      (cancelQueuedCall s).published = s.published ∧
      (cancelQueuedCall s).currentNonce = s.currentNonce := by
  intro s
  exact ⟨rfl, rfl, rfl, rfl, rfl, rfl, rfl, rfl⟩

/-- Claim C2 counterexample: with `updateStateOnAllCall` set (one of the
configurations the claim quantifies over), an operation in flight at
`reset()` still publishes its outcome afterward: trigger, reset, then
the producer settles — the final published entry is `Resolved 1`,
published after the reset's `Pending`. -/
theorem c2_reset_cex :
    (run withAllCall envId (initCState withAllCall)
        [.trigger 1, .reset, .settle 0]).published =
      [AES.loading, AES.pending, AES.resolved 1] ∧
    (run withAllCall envId (initCState withAllCall)
        [.trigger 1, .reset, .settle 0]).result = AES.resolved 1 := by
  exact ⟨by decide, by decide⟩

/-- Claim C5 counterexample: with `noLoadingOnReload` set, trigger 1
publishes `Loading` (state was `Pending`), trigger 2 queues; when the
first producer settles, its outcome is suppressed (queued producer
present) and the drain admits the queued retry, which publishes
`Loading` again — even though the currently published result is
`Loading`, not `Pending` (the admission consults the render closure's
stale `currentState`, still `Pending`). -/
theorem c5_loading_cex :
    (run withNoLoadOnReload envId (initCState withNoLoadOnReload)
        [.trigger 1, .trigger 2]).result = AES.loading ∧
    (run withNoLoadOnReload envId (initCState withNoLoadOnReload)
        [.trigger 1, .trigger 2]).published = [AES.loading] ∧
    (run withNoLoadOnReload envId (initCState withNoLoadOnReload)
        [.trigger 1, .trigger 2, .settle 0]).published =
      [AES.loading, AES.loading] := by
  exact ⟨by decide, by decide, by decide⟩

/-- Claim C7 counterexample: `debounceDelayMs = 1000`, three triggers
all issued before any debounce timer fires; then both timers fire and
the running producers settle.  Three operations are admitted but only
two producers are ever invoked (the first and the last): producer 2's
debounce wait ends with a stale generation and is skipped, so the
number of producer invocations (2) is not the number of triggers (3). -/
theorem c7_debounce_cex :
    (run withDebounce envId (initCState withDebounce)
        [.trigger 1, .trigger 2, .trigger 3,
         .fire 1, .fire 1, .settle 0, .settle 0]).invoked = [1, 3] ∧
    (run withDebounce envId (initCState withDebounce)
        [.trigger 1, .trigger 2, .trigger 3,
         .fire 1, .fire 1, .settle 0, .settle 0]).admitted = [1, 2, 3] ∧
    (run withDebounce envId (initCState withDebounce)
        [.trigger 1, .trigger 2, .trigger 3,
         .fire 1, .fire 1, .settle 0, .settle 0]).tasks = [] := by
  exact ⟨by decide, by decide, by decide⟩

/-- Witness for `c8_combine_precedence` at concrete inputs, discharging
the not-both-resolved hypothesis of the combiner-irrelevance conjunct at
`a = loading`, `b = resolved 4`. -/
theorem c8_combine_precedence_witness :
    combine (fun a b => a + b) (.loading : AES Nat) (.resolved 4) =
      combine (fun a b => a * b) (.loading : AES Nat) (.resolved 4) :=
  ((c8_combine_precedence Nat Nat Nat (fun a b => a + b) (fun a b => a * b)
      .loading (.resolved 4) 0 0 0 0).2.2.2.2.2.2.2.2.2.2.2.2.2.2)
    (fun _ _ => Or.inl (fun h => AES.noConfusion h))

/-- Claim C4: the staleness predicate is exactly
`updateStateOnAllCall || (capturedNonce == currentNonce && queued empty)`,
and it is re-evaluated from the live refs at each checkpoint: when a
debounce wait ends, the producer is invoked iff the predicate holds at
that moment (else the operation is skipped entirely and drains), and
when a producer settles, the `Resolved`/`Error` outcome is published iff
the predicate holds at that moment (the drain always follows). -/
theorem c4_staleness_checkpoints :
    (∀ (o : Options) (n q c : Option Nat),
      shouldUpdateState o n q c =
        (o.updateStateOnAllCall || (n == c && q.isNone))) ∧
    (∀ (o : Options) (s : CState) (i : Nat) (t : OpTask),
      s.tasks[i]? = some t → t.phase = .debouncing →
      fireTask o i s =
        (if shouldUpdateState o t.nonce s.updateQueued s.currentNonce then
          { s with tasks := s.tasks.set i { t with phase := .running },
                   invoked := s.invoked ++ [t.producer] }
        else drain o { s with tasks := s.tasks.eraseIdx i })) ∧
    (∀ (o : Options) (env : Env) (s : CState) (i : Nat) (t : OpTask),
      s.tasks[i]? = some t → t.phase = .running →
      settleTask o env i s =
        drain o
          (if shouldUpdateState o t.nonce s.updateQueued s.currentNonce then
            (match env t.producer with
             | .ok v =>
               { s with tasks := s.tasks.eraseIdx i,
                        result := AES.resolved v,
                        published := s.published ++ [AES.resolved v] }
             | .err e =>
               { s with tasks := s.tasks.eraseIdx i,
                        result := AES.error e,
                        published := s.published ++ [AES.error e] })
          else { s with tasks := s.tasks.eraseIdx i })) := by
  refine ⟨fun o n q c => rfl, ?_, ?_⟩
  · intro o s i t ht hp
    simp only [fireTask, ht, hp]
  · intro o env s i t ht hp
    simp only [settleTask, ht, hp]

/-- A one-task state used to witness `c4_staleness_checkpoints`. -/
def c4WitState : CState :=
  { initCState withDebounce with
      tasks := [⟨some 1, 7, .debouncing⟩], updateRunning := 1 }

/-- Witness for `c4_staleness_checkpoints`: the fire characterization
applied to a concrete one-task state. -/
theorem c4_staleness_checkpoints_witness :
    c4WitState.tasks[0]? = some ⟨some 1, 7, .debouncing⟩ ∧
    fireTask withDebounce 0 c4WitState =
      (if shouldUpdateState withDebounce (some 1) c4WitState.updateQueued
          c4WitState.currentNonce then
        { c4WitState with
            tasks := c4WitState.tasks.set 0 ⟨some 1, 7, .running⟩,
            invoked := c4WitState.invoked ++ [7] }
      else drain withDebounce
        { c4WitState with tasks := c4WitState.tasks.eraseIdx 0 }) :=
  ⟨rfl, c4_staleness_checkpoints.2.1 withDebounce c4WitState 0
    ⟨some 1, 7, .debouncing⟩ rfl rfl⟩

/-- Claim C6: debounce decision at admission.  For a trigger (not a
queued retry) admitted with an empty queue slot: a debouncing task is
created iff `debounceDelayMs` is truthy and either this is not the only
operation in flight (`runningCount > 1` after admission) or
`debounceOnInitialCall` is set; otherwise the producer runs at once.  A
queued retry (`update` with `queuedUpdate = true`) always runs at once,
never entering a debounce wait. -/
theorem c6_debounce_decision :
    ∀ (o : Options) (p : Nat) (s : CState),
      s.updateQueued = none →
      (s.updateRunning = 0 ∨ shouldQueueCfg o = false) →
      (triggerCall o p s).tasks =
        s.tasks ++
          [⟨nonceIncr s.currentNonce, p,
            if msTruthy o.debounceDelayMs then
              (if s.updateRunning + 1 == 1 then
                (if o.debounceOnInitialCall then .debouncing else .running)
              else .debouncing)
            else .running⟩] ∧
      (update o true p s).tasks = s.tasks ++ [⟨s.currentNonce, p, .running⟩] := by
  intro o p s hq hrun
  have hqc : (s.updateRunning != 0 && shouldQueueCfg o) = false := by
    rcases hrun with h | h
    · simp [h]
    · simp [h]
  constructor
  · simp only [triggerCall, update, updateF, hqc, shouldUpdateState, hq,
      Option.isNone_none, Bool.and_true, beq_self_eq_true, Bool.or_true,
      Bool.false_and, if_false, Bool.and_self]
    rcases hms : msTruthy o.debounceDelayMs with _ | _
    · simp [hms]
    · rcases hone : (s.updateRunning + 1 == 1) with _ | _
      · simp [hms, hone]
      · rcases hini : o.debounceOnInitialCall with _ | _
        · simp [hms, hone, hini]
        · simp [hms, hone, hini]
  · simp only [update, updateF, hqc, shouldUpdateState, hq,
      Option.isNone_none, Bool.and_true, beq_self_eq_true, Bool.or_true,
      if_true, if_false]
    simp

/-- Witness for `c6_debounce_decision` at `debounceDelayMs = 1000`,
`debounceOnInitialCall = false`, first trigger from the initial state:
the sole operation runs at once, and a queued retry runs at once. -/
theorem c6_debounce_decision_witness :
    (initCState withDebounce).updateQueued = none ∧
    ((initCState withDebounce).updateRunning = 0 ∨
      shouldQueueCfg withDebounce = false) ∧
    (triggerCall withDebounce 5 (initCState withDebounce)).tasks =
      [⟨some 1, 5, .running⟩] ∧
    (update withDebounce true 5 (initCState withDebounce)).tasks =
      [⟨some 0, 5, .running⟩] :=
  ⟨rfl, Or.inl rfl,
    (c6_debounce_decision withDebounce 5 (initCState withDebounce) rfl
      (Or.inl rfl)).1,
    (c6_debounce_decision withDebounce 5 (initCState withDebounce) rfl
      (Or.inl rfl)).2⟩

/-- Claim C5 (amended): at an admission, `Loading` is published iff
`noLoadingOnReload` is false or the render closure's snapshot of the
state (`currentState`, which lags the published result until the next
re-render) is `Pending`.  When a re-render separates the cycles the
snapshot agrees with the published result and the claim's consequence
holds: with the flag set, after a Loading-to-Resolved cycle and
re-render a second trigger publishes no `Loading`; without the flag it
does. -/
theorem c5_loading_amended :
    (∀ (o : Options) (p : Nat) (s : CState),
      s.updateQueued = none → s.updateRunning = 0 →
      (triggerCall o p s).published =
        s.published ++
          (if !o.noLoadingOnReload || isPendingTag s.renderState then
            [AES.loading] else [])) ∧
    (run withNoLoadOnReload envId (initCState withNoLoadOnReload)
        [.trigger 1, .settle 0, .rerender, .trigger 2]).published =
      [AES.loading, AES.resolved 1] ∧
    (run defaultManualOptions envId (initCState defaultManualOptions)
        [.trigger 1, .settle 0, .rerender, .trigger 2]).published =
      [AES.loading, AES.resolved 1, AES.loading] := by
  refine ⟨?_, by decide, by decide⟩
  intro o p s hq hrun
  simp only [triggerCall, update, updateF, hrun, shouldUpdateState, hq,
    Option.isNone_none, Bool.and_true, beq_self_eq_true, Bool.or_true,
    bne_self_eq_false, Bool.false_and, if_false]
  rcases hload : (!o.noLoadingOnReload || isPendingTag s.renderState) with _ | _ <;>
    simp only [hload, if_true, if_false] <;> (repeat' split) <;> simp_all

/-- Witness for `c5_loading_amended`: first trigger from the manual
initial state publishes `Loading` (snapshot is `Pending`). -/
theorem c5_loading_amended_witness :
    (initCState defaultManualOptions).updateQueued = none ∧
    (initCState defaultManualOptions).updateRunning = 0 ∧
    (triggerCall defaultManualOptions 3
        (initCState defaultManualOptions)).published = [AES.loading] :=
  ⟨rfl, rfl,
    c5_loading_amended.1 defaultManualOptions 3
      (initCState defaultManualOptions) rfl rfl⟩

/-- Running a concatenation of action lists runs them in sequence. -/
theorem run_append (o : Options) (env : Env) (xs ys : List Act) :
    ∀ s : CState, run o env s (xs ++ ys) = run o env (run o env s xs) ys := by
  induction xs with
  | nil => intro s; rfl
  | cons a rest ih => intro s; simpa [run] using ih (step o env s a)

/-- A non-trigger action on a state with an empty queue slot admits no
operation and leaves the queue slot empty. -/
theorem step_passive_admitted (o : Options) (env : Env) (s : CState)
    (a : Act) (hq : s.updateQueued = none) (ha : isTriggerAct a = false) :
    (step o env s a).admitted = s.admitted ∧
      (step o env s a).updateQueued = none := by
  cases a with
  | trigger p => simp [isTriggerAct] at ha
  | cancelQueued => exact ⟨rfl, rfl⟩
  | reset => exact ⟨rfl, rfl⟩
  | rerender => exact ⟨rfl, hq⟩
  | fire i =>
    rcases hget : s.tasks[i]? with _ | t
    · constructor <;> simp [step, fireTask, hget, hq]
    · cases hph : t.phase with
      | debouncing =>
        simp only [step, fireTask, hget, hph, hq]
        split
        · exact ⟨rfl, rfl⟩
        · constructor <;> simp [drain]
      | running => constructor <;> simp [step, fireTask, hget, hph, hq]
  | settle i =>
    rcases hget : s.tasks[i]? with _ | t
    · constructor <;> simp [step, settleTask, hget, hq]
    · cases hph : t.phase with
      | debouncing => constructor <;> simp [step, settleTask, hget, hph, hq]
      | running =>
        simp only [step, settleTask, hget, hph, hq]
        split
        · cases henv : env t.producer with
          | ok v => constructor <;> simp [henv, drain]
          | err e => constructor <;> simp [henv, drain]
        · constructor <;> simp [drain]

/-- A sequence of non-trigger actions from a state with an empty queue
slot admits no operation. -/
theorem run_passive_admitted (o : Options) (env : Env) (acts : List Act) :
    ∀ s : CState, s.updateQueued = none →
      (∀ a ∈ acts, isTriggerAct a = false) →
      (run o env s acts).admitted = s.admitted ∧
        (run o env s acts).updateQueued = none := by
  induction acts with
  | nil => intro s hq _; exact ⟨rfl, hq⟩
  | cons a rest ih =>
    intro s hq hall
    have h1 := step_passive_admitted o env s a hq
      (hall a (List.mem_cons_self a rest))
    have h2 := ih (step o env s a) h1.2
      (fun b hb => hall b (List.mem_cons_of_mem a hb))
    exact ⟨h2.1.trans h1.1, h2.2⟩

/-- Claim C1: with default options, three triggers while the first
admitted operation is still outstanding admit exactly one operation
immediately (producer `p1` runs); when it settles, exactly one follow-up
operation is admitted, using the most recently supplied producer `p3`;
and no third operation is ever admitted afterward, whatever non-trigger
scheduling (settlements, timer fires, cancels, resets, re-renders)
follows. -/
theorem c1_dedup_collapse :
    ∀ (p1 p2 p3 : Nat) (env : Env) (acts : List Act),
      (∀ a ∈ acts, isTriggerAct a = false) →
      (run defaultManualOptions env (initCState defaultManualOptions)
          [.trigger p1, .trigger p2, .trigger p3]).admitted = [p1] ∧
      (run defaultManualOptions env (initCState defaultManualOptions)
          [.trigger p1, .trigger p2, .trigger p3]).invoked = [p1] ∧
      (run defaultManualOptions env (initCState defaultManualOptions)
          [.trigger p1, .trigger p2, .trigger p3]).tasks =
        [⟨some 1, p1, .running⟩] ∧
      (run defaultManualOptions env (initCState defaultManualOptions)
          [.trigger p1, .trigger p2, .trigger p3, .settle 0]).admitted =
        [p1, p3] ∧
      (run defaultManualOptions env (initCState defaultManualOptions)
          [.trigger p1, .trigger p2, .trigger p3, .settle 0]).invoked =
        [p1, p3] ∧
      (run defaultManualOptions env (initCState defaultManualOptions)
          ([.trigger p1, .trigger p2, .trigger p3, .settle 0] ++ acts)).admitted =
        [p1, p3] := by
  intro p1 p2 p3 env acts hacts
  have h4 : run defaultManualOptions env (initCState defaultManualOptions)
      [.trigger p1, .trigger p2, .trigger p3, .settle 0] =
      { result := AES.loading, renderState := AES.pending,
        updateQueued := none, updateRunning := 1, currentNonce := some 3,
        tasks := [⟨some 3, p3, .running⟩], admitted := [p1, p3],
        invoked := [p1, p3],
        published := [AES.loading, AES.loading] } := rfl
  refine ⟨rfl, rfl, rfl, by rw [h4], by rw [h4], ?_⟩
  rw [run_append, h4]
  exact (run_passive_admitted defaultManualOptions env acts _ rfl hacts).1

/-- Witness for `c1_dedup_collapse` at producers 1, 2, 3 and an empty
follow-up schedule. -/
theorem c1_dedup_collapse_witness :
    (run defaultManualOptions envId (initCState defaultManualOptions)
        [.trigger 1, .trigger 2, .trigger 3]).admitted = [1] ∧
    (run defaultManualOptions envId (initCState defaultManualOptions)
        ([.trigger 1, .trigger 2, .trigger 3, .settle 0] ++
          [.settle 0])).admitted = [1, 3] :=
  ⟨(c1_dedup_collapse 1 2 3 envId [.settle 0] (by decide)).1,
    (c1_dedup_collapse 1 2 3 envId [.settle 0] (by decide)).2.2.2.2.2⟩

/-- Returns `true` exactly on the actions that restart coordinator activity
(`trigger`) or re-publish (`reset`). -/
def isTriggerOrReset : Act → Bool
  | .trigger _ => true
  | .reset => true
  | _ => false

/-- After `reset` (generation nulled, queue cleared), as long as only
settlements, timer fires, cancels and re-renders occur and
`updateStateOnAllCall` is off, no step publishes anything: the staleness
predicate of every pre-reset operation compares its captured generation
against the `null` sentinel and fails. -/
theorem step_after_reset (o : Options) (env : Env) (s : CState) (a : Act)
    (hall : o.updateStateOnAllCall = false)
    (hn : s.currentNonce = none) (hq : s.updateQueued = none)
    (ht : ∀ t ∈ s.tasks, t.nonce ≠ none)
    (ha : isTriggerOrReset a = false) :
    (step o env s a).result = s.result ∧
      (step o env s a).published = s.published ∧
      (step o env s a).currentNonce = none ∧
      (step o env s a).updateQueued = none ∧
      (∀ t ∈ (step o env s a).tasks, t.nonce ≠ none) := by
  cases a with
  | trigger p => simp [isTriggerOrReset] at ha
  | reset => simp [isTriggerOrReset] at ha
  | cancelQueued => exact ⟨rfl, rfl, hn, rfl, ht⟩
  | rerender => exact ⟨rfl, rfl, hn, hq, ht⟩
  | fire i =>
    rcases hget : s.tasks[i]? with _ | t
    · have hstep : step o env s (.fire i) = s := by
        simp [step, fireTask, hget]
      rw [hstep]
      exact ⟨rfl, rfl, hn, hq, ht⟩
    · have htm := ht t (List.getElem?_mem hget)
      have hpred : shouldUpdateState o t.nonce none s.currentNonce = false := by
        rcases hnt : t.nonce with _ | g
        · exact absurd hnt htm
        · simp [shouldUpdateState, hall, hn, hnt]
      cases hph : t.phase with
      | debouncing =>
        have hstep : step o env s (.fire i) =
            { s with tasks := s.tasks.eraseIdx i,
                     updateRunning := s.updateRunning - 1,
                     updateQueued := none } := by
          simp [step, fireTask, hget, hph, hq, hpred, drain]
        rw [hstep]
        exact ⟨rfl, rfl, hn, rfl,
          fun t2 ht2 => ht t2 (List.eraseIdx_subset s.tasks i ht2)⟩
      | running =>
        have hstep : step o env s (.fire i) = s := by
          simp [step, fireTask, hget, hph]
        rw [hstep]
        exact ⟨rfl, rfl, hn, hq, ht⟩
  | settle i =>
    rcases hget : s.tasks[i]? with _ | t
    · have hstep : step o env s (.settle i) = s := by
        simp [step, settleTask, hget]
      rw [hstep]
      exact ⟨rfl, rfl, hn, hq, ht⟩
    · have htm := ht t (List.getElem?_mem hget)
      have hpred : shouldUpdateState o t.nonce none s.currentNonce = false := by
        rcases hnt : t.nonce with _ | g
        · exact absurd hnt htm
        · simp [shouldUpdateState, hall, hn, hnt]
      cases hph : t.phase with
      | debouncing =>
        have hstep : step o env s (.settle i) = s := by
          simp [step, settleTask, hget, hph]
        rw [hstep]
        exact ⟨rfl, rfl, hn, hq, ht⟩
      | running =>
        have hstep : step o env s (.settle i) =
            { s with tasks := s.tasks.eraseIdx i,
                     updateRunning := s.updateRunning - 1,
                     updateQueued := none } := by
          simp [step, settleTask, hget, hph, hq, hpred, drain]
        rw [hstep]
        exact ⟨rfl, rfl, hn, rfl,
          fun t2 ht2 => ht t2 (List.eraseIdx_subset s.tasks i ht2)⟩

/-- Iterated version of `step_after_reset`. -/
theorem run_after_reset (o : Options) (env : Env) (acts : List Act)
    (hall : o.updateStateOnAllCall = false) :
    ∀ s : CState, s.currentNonce = none → s.updateQueued = none →
      (∀ t ∈ s.tasks, t.nonce ≠ none) →
      (∀ a ∈ acts, isTriggerOrReset a = false) →
      (run o env s acts).result = s.result ∧
        (run o env s acts).published = s.published := by
  induction acts with
  | nil => intro s _ _ _ _; exact ⟨rfl, rfl⟩
  | cons a rest ih =>
    intro s hn hq ht hacts
    have h1 := step_after_reset o env s a hall hn hq ht
      (hacts a (List.mem_cons_self a rest))
    have h2 := ih (step o env s a) h1.2.2.1 h1.2.2.2.1 h1.2.2.2.2
      (fun b hb => hacts b (List.mem_cons_of_mem a hb))
    exact ⟨h2.1.trans h1.1, h2.2.trans h1.2.1⟩

/-- Claim C2 (amended): with `updateStateOnAllCall` off, an operation in
flight at `reset()` never publishes its outcome afterward, provided no
trigger (and no further reset) occurs before it completes: every
subsequent settlement, timer fire, cancel or re-render leaves the
published state at the configured initial state and publishes nothing.
`reset` itself publishes the configured initial state, sets the
generation to the `null` sentinel, clears the queued producer, and
leaves `runningCount` unchanged. -/
theorem c2_reset_amended :
    ∀ (o : Options) (env : Env) (s : CState) (acts : List Act),
      o.updateStateOnAllCall = false →
      (∀ t ∈ s.tasks, t.nonce ≠ none) →
      (∀ a ∈ acts, isTriggerOrReset a = false) →
      (resetCall o s).result = initResult o ∧
      (resetCall o s).published = s.published ++ [initResult o] ∧
      (resetCall o s).currentNonce = none ∧
      (resetCall o s).updateQueued = none ∧
      (resetCall o s).updateRunning = s.updateRunning ∧
      (run o env (resetCall o s) acts).result = initResult o ∧
      (run o env (resetCall o s) acts).published =
        s.published ++ [initResult o] := by
  intro o env s acts hall ht hacts
  have h := run_after_reset o env acts hall (resetCall o s) rfl rfl ht hacts
  exact ⟨rfl, rfl, rfl, rfl, rfl, h.1, h.2⟩

/-- Witness for `c2_reset_amended`: a default-options operation in
flight at reset, followed by its settlement; the published log gains
nothing after the reset's `Pending`. -/
theorem c2_reset_amended_witness :
    defaultManualOptions.updateStateOnAllCall = false ∧
    (∀ t ∈ (run defaultManualOptions envId
        (initCState defaultManualOptions) [.trigger 1]).tasks,
      t.nonce ≠ none) ∧
    (run defaultManualOptions envId
        (resetCall defaultManualOptions
          (run defaultManualOptions envId
            (initCState defaultManualOptions) [.trigger 1]))
        [.settle 0, .fire 0, .cancelQueued, .rerender]).published =
      [AES.loading, AES.pending] :=
  ⟨rfl, by decide,
    (c2_reset_amended defaultManualOptions envId
      (run defaultManualOptions envId
        (initCState defaultManualOptions) [.trigger 1])
      [.settle 0, .fire 0, .cancelQueued, .rerender]
      rfl (by decide) (by decide)).2.2.2.2.2.2⟩

/-- Claim C7 (amended): with a truthy `debounceDelayMs`, dedup-queueing
is disabled: a trigger arriving while operations are in flight never
stores a queued producer but is admitted into its own debounce wait
(its producer is not invoked yet); when the wait ends the producer runs
iff the trigger's captured generation is still current, so rapid
triggers do not all run — three triggers all issued before any wait
elapses yield exactly two producer invocations (the first and the
last), while a second trigger whose wait fires un-superseded runs and
yields one invocation per trigger. -/
theorem c7_debounce_amended :
    (∀ (o : Options) (p : Nat) (s : CState),
      msTruthy o.debounceDelayMs = true →
      s.updateRunning ≠ 0 → s.updateQueued = none →
      (triggerCall o p s).updateQueued = none ∧
      (triggerCall o p s).tasks =
        s.tasks ++ [⟨nonceIncr s.currentNonce, p, .debouncing⟩] ∧
      (triggerCall o p s).invoked = s.invoked) ∧
    (∀ (o : Options) (s : CState) (i : Nat) (t : OpTask),
      o.updateStateOnAllCall = false →
      s.tasks[i]? = some t → t.phase = .debouncing → s.updateQueued = none →
      ((fireTask o i s).invoked = s.invoked ++ [t.producer] ↔
        (t.nonce == s.currentNonce) = true)) ∧
    (run withDebounce envId (initCState withDebounce)
        [.trigger 1, .trigger 2, .trigger 3,
         .fire 1, .fire 1, .settle 0, .settle 0]).invoked = [1, 3] ∧
    (run withDebounce envId (initCState withDebounce)
        [.trigger 1, .trigger 2, .fire 1, .settle 0, .settle 0]).invoked =
      [1, 2] := by
  refine ⟨?_, ?_, by decide, by decide⟩
  · intro o p s hms hrun hq
    have hqc : shouldQueueCfg o = false := by simp [shouldQueueCfg, hms]
    have hone : (s.updateRunning + 1 == 1) = false := by
      simp only [beq_eq_false_iff_ne]
      omega
    refine ⟨?_, ?_, ?_⟩ <;>
      simp [triggerCall, update, updateF, hqc, hms, hone, hq]
  · intro o s i t hall hget hph hq
    have hpred : shouldUpdateState o t.nonce none s.currentNonce =
        (t.nonce == s.currentNonce) := by
      simp [shouldUpdateState, hall]
    rcases hb : (t.nonce == s.currentNonce) with _ | _
    · have hstep : fireTask o i s =
          { s with tasks := s.tasks.eraseIdx i,
                   updateRunning := s.updateRunning - 1,
                   updateQueued := none } := by
        simp [fireTask, hget, hph, hq, hpred, hb, drain]
      rw [hstep]
      simp
    · have hstep : fireTask o i s =
          { s with tasks := s.tasks.set i { t with phase := .running },
                   invoked := s.invoked ++ [t.producer] } := by
        simp [fireTask, hget, hph, hq, hpred, hb]
      rw [hstep]
      simp

/-- Witness for `c7_debounce_amended`: the non-initial-trigger clause at
a concrete in-flight state, and the fire clause at a concrete
one-debouncing-task state. -/
theorem c7_debounce_amended_witness :
    (triggerCall withDebounce 2
        (run withDebounce envId (initCState withDebounce)
          [.trigger 1])).tasks =
      [⟨some 1, 1, .running⟩, ⟨some 2, 2, .debouncing⟩] ∧
    ((fireTask withDebounce 1
        (run withDebounce envId (initCState withDebounce)
          [.trigger 1, .trigger 2])).invoked = [1, 2] ↔
      ((some 2 : Option Nat) == some 2) = true) :=
  ⟨by
    have h := (c7_debounce_amended.1 withDebounce 2
      (run withDebounce envId (initCState withDebounce) [.trigger 1])
      rfl (by decide) rfl).2.1
    rw [h]
    decide,
   c7_debounce_amended.2.1 withDebounce
    (run withDebounce envId (initCState withDebounce)
      [.trigger 1, .trigger 2])
    1 ⟨some 2, 2, .debouncing⟩ rfl rfl rfl rfl⟩

/-- Function `updateF` only consults the debounce delay through its JS
truthiness: two option records agreeing on every other field and on
`msTruthy debounceDelayMs` drive `update` identically. -/
theorem updateF_delay_congr (o1 o2 : Options)
    (hms : msTruthy o1.debounceDelayMs = msTruthy o2.debounceDelayMs)
    (h1 : o1.noLoadingOnReload = o2.noLoadingOnReload)
    (h2 : o1.disableRequestDedup = o2.disableRequestDedup)
    (h3 : o1.updateStateOnAllCall = o2.updateStateOnAllCall)
    (h4 : o1.debounceOnInitialCall = o2.debounceOnInitialCall) :
    ∀ (n : Nat) (b : Bool) (p : Nat) (s : CState),
      updateF n o1 b p s = updateF n o2 b p s := by
  intro n
  induction n with
  | zero => intro b p s; rfl
  | succ n ih =>
    intro b p s
    simp only [updateF, shouldQueueCfg, shouldUpdateState, hms, h1, h2, h3, h4]
    repeat' split
    any_goals rfl
    all_goals exact ih _ _ _

/-- Congruence of `drain` in the debounce delay's truthiness. -/
theorem drain_delay_congr (o1 o2 : Options)
    (hms : msTruthy o1.debounceDelayMs = msTruthy o2.debounceDelayMs)
    (h1 : o1.noLoadingOnReload = o2.noLoadingOnReload)
    (h2 : o1.disableRequestDedup = o2.disableRequestDedup)
    (h3 : o1.updateStateOnAllCall = o2.updateStateOnAllCall)
    (h4 : o1.debounceOnInitialCall = o2.debounceOnInitialCall) :
    ∀ s : CState, drain o1 s = drain o2 s := by
  intro s
  unfold drain
  rcases s.updateQueued with _ | q
  · rfl
  · exact updateF_delay_congr o1 o2 hms h1 h2 h3 h4 2 true q _

/-- Congruence of `step` in the debounce delay's truthiness. -/
theorem step_delay_congr (o1 o2 : Options) (env : Env)
    (hms : msTruthy o1.debounceDelayMs = msTruthy o2.debounceDelayMs)
    (h1 : o1.noLoadingOnReload = o2.noLoadingOnReload)
    (h2 : o1.disableRequestDedup = o2.disableRequestDedup)
    (h3 : o1.updateStateOnAllCall = o2.updateStateOnAllCall)
    (h4 : o1.debounceOnInitialCall = o2.debounceOnInitialCall)
    (h5 : o1.initiallyPending = o2.initiallyPending) :
    ∀ (s : CState) (a : Act), step o1 env s a = step o2 env s a := by
  intro s a
  cases a with
  | trigger p =>
    exact updateF_delay_congr o1 o2 hms h1 h2 h3 h4 2 false p _
  | cancelQueued => rfl
  | reset => simp only [step, resetCall, initResult, h5]
  | rerender => rfl
  | fire i =>
    simp only [step, fireTask, shouldUpdateState, h3]
    repeat' split
    any_goals rfl
    all_goals exact drain_delay_congr o1 o2 hms h1 h2 h3 h4 _
  | settle i =>
    simp only [step, settleTask, shouldUpdateState, h3]
    repeat' split
    any_goals rfl
    all_goals exact drain_delay_congr o1 o2 hms h1 h2 h3 h4 _

/-- Congruence of `run` in the debounce delay's truthiness. -/
theorem run_delay_congr (o1 o2 : Options) (env : Env)
    (hms : msTruthy o1.debounceDelayMs = msTruthy o2.debounceDelayMs)
    (h1 : o1.noLoadingOnReload = o2.noLoadingOnReload)
    (h2 : o1.disableRequestDedup = o2.disableRequestDedup)
    (h3 : o1.updateStateOnAllCall = o2.updateStateOnAllCall)
    (h4 : o1.debounceOnInitialCall = o2.debounceOnInitialCall)
    (h5 : o1.initiallyPending = o2.initiallyPending) :
    ∀ (acts : List Act) (s : CState), run o1 env s acts = run o2 env s acts := by
  intro acts
  induction acts with
  | nil => intro s; rfl
  | cons a rest ih =>
    intro s
    simp only [run]
    rw [step_delay_congr o1 o2 env hms h1 h2 h3 h4 h5 s a]
    exact ih _

/-- Claim C10: `debounceDelayMs = 0` is falsy in JS, so it behaves
identically to leaving the option unset: every action sequence produces
the same states; with dedup not disabled an overlapping trigger is
queued (not run concurrently); and no admitted operation ever enters a
debounce wait (every new task is in the running phase). -/
theorem c10_zero_delay :
    ∀ (o : Options) (env : Env) (s : CState) (acts : List Act),
      run { o with debounceDelayMs := some 0 } env s acts =
        run { o with debounceDelayMs := none } env s acts ∧
      (o.disableRequestDedup = false →
        ∀ (p : Nat) (s2 : CState), s2.updateRunning ≠ 0 →
          triggerCall { o with debounceDelayMs := some 0 } p s2 =
            { s2 with currentNonce := nonceIncr s2.currentNonce,
                      updateQueued := some p }) ∧
      (∀ (p : Nat) (s2 : CState), s2.updateQueued = none →
        ∀ t ∈ (triggerCall { o with debounceDelayMs := some 0 } p s2).tasks,
          t ∈ s2.tasks ∨ t.phase = .running) := by
  intro o env s acts
  refine ⟨run_delay_congr { o with debounceDelayMs := some 0 }
    { o with debounceDelayMs := none } env rfl rfl rfl rfl rfl rfl acts s,
    ?_, ?_⟩
  · intro hded p s2 hrun
    have hqc : (s2.updateRunning != 0 &&
        shouldQueueCfg { o with debounceDelayMs := some 0 }) = true := by
      simp [shouldQueueCfg, msTruthy, hded, hrun]
    simp [triggerCall, update, updateF, hqc]
  · intro p s2 hq t htmem
    rcases hc : (s2.updateRunning != 0 &&
        shouldQueueCfg { o with debounceDelayMs := some 0 }) with _ | _
    · have htasks : (triggerCall { o with debounceDelayMs := some 0 }
          p s2).tasks =
          s2.tasks ++ [⟨nonceIncr s2.currentNonce, p, .running⟩] := by
        simp [triggerCall, update, updateF, hc, hq, msTruthy,
          shouldUpdateState]
      rw [htasks] at htmem
      rcases List.mem_append.mp htmem with h | h
      · exact Or.inl h
      · right
        rw [List.mem_singleton.mp h]
    · have htasks : (triggerCall { o with debounceDelayMs := some 0 }
          p s2).tasks = s2.tasks := by
        simp [triggerCall, update, updateF, hc]
      rw [htasks] at htmem
      exact Or.inl htmem

/-- Witness for `c10_zero_delay`: concrete overlapping-trigger queueing
and the run equality on a concrete schedule. -/
theorem c10_zero_delay_witness :
    run { defaultManualOptions with debounceDelayMs := some 0 } envId
        (initCState defaultManualOptions)
        [.trigger 1, .trigger 2, .settle 0, .settle 0] =
      run { defaultManualOptions with debounceDelayMs := none } envId
        (initCState defaultManualOptions)
        [.trigger 1, .trigger 2, .settle 0, .settle 0] ∧
    triggerCall { defaultManualOptions with debounceDelayMs := some 0 } 2
        (run { defaultManualOptions with debounceDelayMs := some 0 } envId
          (initCState defaultManualOptions) [.trigger 1]) =
      { (run { defaultManualOptions with debounceDelayMs := some 0 } envId
          (initCState defaultManualOptions) [.trigger 1]) with
          currentNonce := some 2, updateQueued := some 2 } :=
  ⟨(c10_zero_delay defaultManualOptions envId
      (initCState defaultManualOptions)
      [.trigger 1, .trigger 2, .settle 0, .settle 0]).1,
    (c10_zero_delay defaultManualOptions envId
      (initCState defaultManualOptions) []).2.1 rfl 2
      (run { defaultManualOptions with debounceDelayMs := some 0 } envId
        (initCState defaultManualOptions) [.trigger 1]) (by decide)⟩
